import Mathlib

/-!
# Pokeball Sender configuration header (`config.h`)

The header holds two items:

* `uint8_t RECEIVER_MAC_ADDRESS[] = {0x08, 0x3A, 0xF2, 0xB7, 0xC0, 0xEC};`
* `#define WIFI_CHANNEL 1`

The array has no declared bound, so its length is the length of the
initialiser list; each initialiser is converted to `uint8_t`, modelled as
reduction modulo `2 ^ 8` on `Nat`.  The header defines no function, and the
array is declared without `const`.
-/

namespace Config

/-! ## Data -/

/-- Conversion of a non-negative integer value to `uint8_t`. -/
def toUInt8 (v : Nat) : Nat := v % 2 ^ 8

/-- The initialiser list of `RECEIVER_MAC_ADDRESS` as written in the header:
`{0x08, 0x3A, 0xF2, 0xB7, 0xC0, 0xEC}`. -/
def RECEIVER_MAC_ADDRESS_initialiser : List Nat :=
  [0x08, 0x3A, 0xF2, 0xB7, 0xC0, 0xEC]

/-- The object `uint8_t RECEIVER_MAC_ADDRESS[]`: one `uint8_t` element per
initialiser, each holding its initialiser converted to `uint8_t`. -/
def RECEIVER_MAC_ADDRESS : List Nat :=
  RECEIVER_MAC_ADDRESS_initialiser.map toUInt8

/-- The replacement of `#define WIFI_CHANNEL 1`: the integer constant `1`. -/
def WIFI_CHANNEL : Int := 1

/-! ## Run-time state

`RECEIVER_MAC_ADDRESS` is declared `uint8_t RECEIVER_MAC_ADDRESS[]`: there is
no `const` qualifier and no `static`, so it is an ordinary global object
whose elements any code that includes the header can read and assign.  The
state below is the content of that object; the statements are the element
accesses the declaration permits. -/

theorem mac_value : RECEIVER_MAC_ADDRESS = [8, 58, 242, 183, 192, 236] := by
  decide

/-- C1: `RECEIVER_MAC_ADDRESS`, declared with unspecified bound, takes its
length from its initialiser list and contains exactly 6 elements. -/
theorem C1_mac_length :
    RECEIVER_MAC_ADDRESS.length = RECEIVER_MAC_ADDRESS_initialiser.length ∧
      RECEIVER_MAC_ADDRESS.length = 6 := by
  decide

/-- C2: for every index `i < 6` the `i`-th initialiser is a value `v` in
`[0, 255]`, so that `v mod 2^8 = v`, and the `i`-th stored element is exactly
`v` (and hence also lies in `[0, 255]`). -/
theorem C2_mac_elements_in_range (i : Nat) (hi : i < 6) :
    ∃ v : Nat, RECEIVER_MAC_ADDRESS_initialiser[i]? = some v ∧
      0 ≤ v ∧ v ≤ 255 ∧ v % 2 ^ 8 = v ∧ RECEIVER_MAC_ADDRESS[i]? = some v := by
  have h : i = 0 ∨ i = 1 ∨ i = 2 ∨ i = 3 ∨ i = 4 ∨ i = 5 := by omega
  rcases h with h | h | h | h | h | h <;> subst h
  · exact ⟨0x08, by decide⟩
  · exact ⟨0x3A, by decide⟩
  · exact ⟨0xF2, by decide⟩
  · exact ⟨0xB7, by decide⟩
  · exact ⟨0xC0, by decide⟩
  · exact ⟨0xEC, by decide⟩

/-- Witness for C2 at index 2 (initialiser `0xF2`). -/
theorem C2_mac_elements_in_range_witness :
    (2 : Nat) < 6 ∧
      ∃ v : Nat, RECEIVER_MAC_ADDRESS_initialiser[2]? = some v ∧
        0 ≤ v ∧ v ≤ 255 ∧ v % 2 ^ 8 = v ∧ RECEIVER_MAC_ADDRESS[2]? = some v :=
  ⟨by decide, C2_mac_elements_in_range 2 (by decide)⟩

/-- C3: `WIFI_CHANNEL` denotes one integer value `c`, and `c > 0`. -/
theorem C3_channel_positive : ∃! c : Int, WIFI_CHANNEL = c ∧ c > 0 := by
  refine ⟨1, ⟨rfl, by decide⟩, ?_⟩
  rintro c ⟨hc, _⟩
  exact hc.symm

/-- C4: `WIFI_CHANNEL` lies in the channel range `1..13`, and hence also in
the wider regional range `1..14`. -/
theorem C4_channel_in_range :
    (1 ≤ WIFI_CHANNEL ∧ WIFI_CHANNEL ≤ 13) ∧ (1 ≤ WIFI_CHANNEL ∧ WIFI_CHANNEL ≤ 14) := by
  decide

/-- C7: `RECEIVER_MAC_ADDRESS` is a unicast address (its first byte is `0x08`,
whose least significant bit is 0), and it is neither the broadcast address
`FF:FF:FF:FF:FF:FF` nor the all-zero address `00:00:00:00:00:00`. -/
theorem C7_mac_unicast :
    (∃ b : Nat, RECEIVER_MAC_ADDRESS[0]? = some b ∧ b = 0x08 ∧ b % 2 = 0) ∧
      RECEIVER_MAC_ADDRESS ≠ [0xFF, 0xFF, 0xFF, 0xFF, 0xFF, 0xFF] ∧
      RECEIVER_MAC_ADDRESS ≠ [0x00, 0x00, 0x00, 0x00, 0x00, 0x00] :=
  ⟨⟨0x08, by decide⟩, by decide, by decide⟩

end Config
